import Mathlib

/-!
Verification of the `fc.py` Firecrawl CLI wrapper
(`src/dot_codex/skills/firecrawl-web/scripts/fc.py`).

The program is a thin command-line dispatcher over an external scraping
service.  We embed it shallowly: every handler becomes a pure Lean function
that, given the command's already-parsed arguments and a `World` holding the
responses the external service and the local file system would supply,
produces the list of observable events (stderr/stdout lines, service calls
with their request parameters, file writes, process exit, uncaught
exceptions) that the Python process would perform, in order.

Python-specific semantics that matter to the claims are modelled explicitly:
truthiness of `None` and of the empty string (`pyOr`, the credential guard),
f-string rendering of `None` as the literal string `"None"` (`pyStr`),
`str.startswith`, `str.split(",", 1)[1]`, slicing `s[:1000]`, the `{i:03d}`
format, and `base64.b64decode` on well-formed input.
-/

/-- Rendering of an optional string inside a Python f-string:
`None` renders as the literal `"None"`. -/
def pyStr : Option String → String
  | none => "None"
  | some s => s

/-- Python `x or d` for an optional string `x`: the fallback `d` is used when
`x` is `None` or the empty string (both falsy). -/
def pyOr (x : Option String) (d : String) : String :=
  match x with
  | none => d
  | some s => if s = "" then d else s

/-- Python `x or d` applied to an optional-string field that is kept optional
(`if prompt:` guard in `extract_data`): a `None` or empty prompt is dropped. -/
def pyOptTruthy (x : Option String) : Option String :=
  match x with
  | none => none
  | some s => if s = "" then none else some s

/-- List-level prefix test used to model Python `str.startswith`. -/
def isPrefixList : List Char → List Char → Bool
  | [], _ => true
  | _ :: _, [] => false
  | a :: as, b :: bs => a = b && isPrefixList as bs

/-- Python `s.startswith(pre)`. -/
def pyStartsWith (s pre : String) : Bool :=
  isPrefixList pre.data s.data

/-- Everything after the first comma of the character list, if any. -/
def afterFirstComma : List Char → Option (List Char)
  | [] => none
  | c :: cs => if c = ',' then some cs else afterFirstComma cs

/-- Python `s.split(",", 1)[1]`: the part of `s` after its first comma;
`none` when `s` has no comma (in which case Python raises `IndexError`). -/
def splitAfterFirstComma (s : String) : Option String :=
  (afterFirstComma s.data).map String.mk

/-- Python slicing `s[:n]`. -/
def pySlice (s : String) (n : Nat) : String :=
  String.mk (s.data.take n)

/-- Python format `f"{i:03d}"` for a natural number: decimal digits padded
with leading zeros to a minimum width of three. -/
def pad3 (i : Nat) : String :=
  let s := toString i
  String.mk (List.replicate (3 - s.length) '0' ++ s.data)

/-- Value of a character in the standard base64 alphabet. -/
def b64val (c : Char) : Option Nat :=
  if 'A' ≤ c && c ≤ 'Z' then some (c.toNat - 65)
  else if 'a' ≤ c && c ≤ 'z' then some (c.toNat - 97 + 26)
  else if '0' ≤ c && c ≤ '9' then some (c.toNat - 48 + 52)
  else if c = '+' then some 62
  else if c = '/' then some 63
  else none

/-- Base64 value with `0` for padding / foreign characters (only reached on
characters of the alphabet after filtering). -/
def b64dec1 (c : Char) : Nat :=
  (b64val c).getD 0

/-- Characters `base64.b64decode` actually looks at: the alphabet plus the
padding character (others are discarded, `validate=False`). -/
def b64filter (cs : List Char) : List Char :=
  cs.filter fun c => (b64val c).isSome || c = '='

/-- Decode filtered base64 characters in groups of four; a padding character
ends the decode, contributing one or two bytes for the final group. -/
def b64chunks : List Char → List Nat
  | a :: b :: c :: d :: rest =>
      let x := b64dec1 a * 262144 + b64dec1 b * 4096 + b64dec1 c * 64 + b64dec1 d
      if c = '=' then [x / 65536]
      else if d = '=' then [x / 65536, x / 256 % 256]
      else [x / 65536, x / 256 % 256, x % 256] ++ b64chunks rest
  | _ => []

/-- Python `base64.b64decode(s)` on well-formed input: the decoded bytes. -/
def b64decode (s : String) : List Nat :=
  b64chunks (b64filter s.data)

/-- An opaque JSON value (no claim inspects the JSON structure itself; the
schema and extraction result are passed through verbatim by the program). -/
structure Json where
  raw : String
deriving DecidableEq

/-- Metadata of a crawled page (`page.metadata`); its `title` field may be
absent. -/
structure Metadata where
  title : Option String
deriving DecidableEq

/-- A page of a crawl response (`result.data` element): optional markdown and
optional metadata. -/
structure CrawlPage where
  markdown : Option String
  metadata : Option Metadata
deriving DecidableEq

/-- A web search result (`results.web` element). -/
structure SearchResult where
  title : Option String
  url : Option String
  description : Option String
deriving DecidableEq

/-- Observable events of one process run, in program order. -/
inductive Event where
  /-- A line printed to standard error. -/
  | stderrLine (s : String) : Event
  /-- `sys.exit(code)`. -/
  | exit (code : Nat) : Event
  /-- The `argparse` layer parsing the subcommand and its arguments. -/
  | parseArgs : Event
  /-- A line printed to standard output (one `print(...)` call). -/
  | stdoutLine (s : String) : Event
  /-- `app.scrape(url, formats=..., only_main_content=...)`; the `Option Bool`
  is the parameter's value, `none` meaning the parameter is omitted from the
  request (Python passes `None`, which the client drops). -/
  | scrapeCall (url : String) (formats : List String) (onlyMainContent : Option Bool) : Event
  /-- `app.scrape(url, formats=[format_spec])` with a JSON format spec built
  from the schema and the (truthy) prompt. -/
  | scrapeJsonCall (url : String) (schema : Json) (prompt : Option String) : Event
  /-- `app.search(query, limit=limit)`. -/
  | searchCall (query : String) (limit : Int) : Event
  /-- `app.crawl(url, limit=limit, scrape_options=...)`. -/
  | crawlCall (url : String) (limit : Int) : Event
  /-- `urllib.request.urlretrieve(url, path)`: fetch a remote resource and
  write its bytes to `path`. -/
  | urlretrieve (url : String) (path : String) : Event
  /-- Writing binary data to a file (`open(path, "wb")` + `f.write(bytes)`). -/
  | writeBin (path : String) (bytes : List Nat) : Event
  /-- `Path(dir).mkdir(parents=True, exist_ok=True)`. -/
  | mkdirP (dir : String) : Event
  /-- Writing a text file (`open(path, "w")` + `f.write(content)`). -/
  | writeFile (path : String) (content : String) : Event
  /-- An uncaught Python exception of the given type propagating out of
  `main`, terminating the process. -/
  | raiseExc (name : String) : Event
deriving DecidableEq

/-- The parsed command line: one of the five subcommands with its arguments
(defaults already applied by `argparse`: markdown `--main-only` defaults to
false, search `--limit` to 5, crawl `--limit` to 50). -/
inductive Cmd where
  | markdown (url : String) (mainOnly : Bool) : Cmd
  | screenshot (url : String) (output : Option String) : Cmd
  | extract (url : String) (schemaPath : String) (prompt : Option String) : Cmd
  | search (query : String) (limit : Int) : Cmd
  | crawl (url : String) (limit : Int) (output : Option String) : Cmd
deriving DecidableEq

/-- The responses the external service and the local environment would give
to this run: one field per call site.  Function-valued fields model the
Python standard library (`open`+`read`, `json.load`, `json.dumps`), which is
outside this repository. -/
structure World where
  /-- `result.markdown` of the markdown scrape. -/
  scrapeMarkdown : Option String
  /-- `result.screenshot` of the screenshot scrape. -/
  screenshotData : String
  /-- `result.json` of the extraction scrape. -/
  extractJson : Json
  /-- `results.web` of the search call (`none` models a null/absent list). -/
  searchWeb : Option (List SearchResult)
  /-- `result.data` of the crawl call. -/
  crawlData : List CrawlPage
  /-- Local file system: contents of a readable file at a path, `none` when
  opening the file raises `FileNotFoundError`. -/
  fileSystem : String → Option String
  /-- `json.load` on a file's contents: `none` when it raises
  `json.JSONDecodeError`. -/
  parseJson : String → Option Json
  /-- `json.dumps(data, indent=2)`. -/
  dumps : Json → String

/-- `scrape_markdown(url, only_main)` (fc.py lines 14-22): performs one
scrape requesting markdown; `only_main_content` is passed as
`only_main if only_main else None`, i.e. omitted unless the flag is true.
Returns the emitted events and `result.markdown`. -/
def scrape_markdown (url : String) (only_main : Bool) (w : World) :
    List Event × Option String :=
  ([Event.scrapeCall url ["markdown"] (if only_main then some only_main else none)],
   w.scrapeMarkdown)

/-- `take_screenshot(url, output_path)` (fc.py lines 25-48): scrape a
screenshot, then branch on the shape of `result.screenshot` and on whether an
output path was given.  Returns the emitted events and either the message the
caller prints or the name of the uncaught exception. -/
def take_screenshot (url : String) (output_path : Option String) (w : World) :
    List Event × Except String String :=
  let d0 := w.screenshotData
  let body : List Event × Except String String :=
    if pyStartsWith d0 "http://" || pyStartsWith d0 "https://" then
      match output_path with
      | some p => ([Event.urlretrieve d0 p], Except.ok ("Screenshot saved to " ++ p))
      | none => ([], Except.ok ("[Screenshot URL: " ++ d0 ++ "]"))
    else
      match (if pyStartsWith d0 "data:image" then splitAfterFirstComma d0 else some d0) with
      | none => ([], Except.error "IndexError")
      | some d =>
        match output_path with
        | some p => ([Event.writeBin p (b64decode d)],
                     Except.ok ("Screenshot saved to " ++ p))
        | none => ([], Except.ok ("[Screenshot: " ++ toString d.length ++ " bytes base64]"))
  (Event.scrapeCall url ["screenshot"] none :: body.1, body.2)

/-- `extract_data(url, schema, prompt)` (fc.py lines 51-60): one scrape with a
JSON format spec embedding the schema and, when truthy, the prompt.  Returns
the emitted events and `result.json`. -/
def extract_data (url : String) (schema : Json) (prompt : Option String) (w : World) :
    List Event × Json :=
  ([Event.scrapeJsonCall url schema (pyOptTruthy prompt)], w.extractJson)

/-- `search_web(query, limit)` (fc.py lines 63-67): one search call; returns
the emitted events and `results.web or []`. -/
def search_web (query : String) (limit : Int) (w : World) :
    List Event × List SearchResult :=
  ([Event.searchCall query limit],
   match w.searchWeb with
   | none => []
   | some xs => if xs.isEmpty then [] else xs)

/-- `crawl_docs(url, limit)` (fc.py lines 70-78): one crawl call; returns the
emitted events and `result.data`. -/
def crawl_docs (url : String) (limit : Int) (w : World) :
    List Event × List CrawlPage :=
  ([Event.crawlCall url limit], w.crawlData)

/-- The command dispatch of `main` after the credential guard and argument
parsing (fc.py lines 119-156): run the selected handler and materialise its
output. -/
def run (cmd : Cmd) (w : World) : List Event :=
  match cmd with
  | Cmd.markdown url mainOnly =>
      let r := scrape_markdown url mainOnly w
      r.1 ++ [Event.stdoutLine (pyStr r.2)]
  | Cmd.screenshot url out =>
      let r := take_screenshot url out w
      match r.2 with
      | Except.ok msg => r.1 ++ [Event.stdoutLine msg]
      | Except.error e => r.1 ++ [Event.raiseExc e]
  | Cmd.extract url schemaPath prompt =>
      match w.fileSystem schemaPath with
      | none => [Event.raiseExc "FileNotFoundError"]
      | some content =>
        match w.parseJson content with
        | none => [Event.raiseExc "JSONDecodeError"]
        | some schema =>
          let r := extract_data url schema prompt w
          r.1 ++ [Event.stdoutLine (w.dumps r.2)]
  | Cmd.search query limit =>
      let r := search_web query limit w
      r.1 ++ r.2.flatMap (fun res =>
        [Event.stdoutLine ("## " ++ pyStr res.title),
         Event.stdoutLine ("URL: " ++ pyStr res.url),
         Event.stdoutLine (pyOr res.description "No description"),
         Event.stdoutLine "\n---\n"])
  | Cmd.crawl url limit out =>
      let r := crawl_docs url limit w
      r.1 ++
      (match out with
       | some dir =>
          Event.mkdirP dir ::
          (r.2.enum.map fun pr =>
            Event.writeFile (dir ++ "/page_" ++ pad3 pr.1 ++ ".md") (pyOr pr.2.markdown ""))
          ++ [Event.stdoutLine ("Saved " ++ toString r.2.length ++ " pages to " ++ dir ++ "/")]
       | none =>
          r.2.flatMap fun page =>
            [Event.stdoutLine ("## " ++ (match page.metadata with
                | some m => pyStr m.title
                | none => "Untitled")),
             Event.stdoutLine (match page.markdown with
                | none => ""
                | some s => if s = "" then "" else pySlice s 1000),
             Event.stdoutLine "\n---\n"])

/-- `main()` (fc.py lines 81-156): check the credential before building the
argument parser; on a falsy `FIRECRAWL_API_KEY` (absent or empty) print to
stderr and exit with code 1, otherwise parse the arguments and dispatch. -/
def mainFn (key : Option String) (cmd : Cmd) (w : World) : List Event :=
  if key.getD "" = "" then
    [Event.stderrLine "FIRECRAWL_API_KEY not set in environment.", Event.exit 1]
  else
    Event.parseArgs :: run cmd w

/-- A world with every response empty, used to build concrete test worlds. -/
def emptyWorld : World where
  scrapeMarkdown := none
  screenshotData := ""
  extractJson := Json.mk ""
  searchWeb := none
  crawlData := []
  fileSystem := fun _ => none
  parseJson := fun _ => none
  dumps := Json.raw

example : pad3 0 = "000" := by decide
example : pad3 12 = "012" := by decide
example : b64decode "AAAA" = [0, 0, 0] := by decide
example : b64decode "TWFu" = [77, 97, 110] := by decide
example : splitAfterFirstComma "data:image/png;base64,AAAA" = some "AAAA" := by decide

/-- Pointwise-equal functions flat-map to equal lists (helper for rewriting
an output loop's body). -/
theorem list_flatMap_ext {α β : Type _} {f g : α → List β} (h : ∀ a, f a = g a) :
    ∀ l : List α, l.flatMap f = l.flatMap g := by
  intro l
  induction l with
  | nil => rfl
  | cons a as ih => simp only [List.flatMap_cons, h, ih]

/-- Claim C1 (confirmed): with `FIRECRAWL_API_KEY` absent from the
environment, every invocation — whatever the subcommand and whatever the
external world would answer — prints the descriptive message to the error
stream and exits with code 1; no argument parsing of subcommands occurs and
no subcommand-specific output (no stdout line) is produced. -/
theorem C1_missing_credential (cmd : Cmd) (w : World) :
    mainFn none cmd w =
      [Event.stderrLine "FIRECRAWL_API_KEY not set in environment.", Event.exit 1]
    ∧ Event.parseArgs ∉ mainFn none cmd w
    ∧ ∀ s, Event.stdoutLine s ∉ mainFn none cmd w := by
  refine ⟨rfl, ?_, ?_⟩ <;> simp [mainFn]

/-- Claim C2 counterexample: a crawl without an output directory, on a page
whose metadata is present but whose metadata title is absent, prints the
heading `## None` (Python renders the absent title as `None`), not the
claimed fallback `## Untitled`. -/
theorem C2_counterexample :
    run (Cmd.crawl "https://docs.example" 50 none)
        { emptyWorld with
            crawlData := [CrawlPage.mk (some "hello") (some (Metadata.mk none))] } =
      [Event.crawlCall "https://docs.example" 50,
       Event.stdoutLine "## None",
       Event.stdoutLine "hello",
       Event.stdoutLine "\n---\n"]
    ∧ Event.stdoutLine "## Untitled" ∉
        run (Cmd.crawl "https://docs.example" 50 none)
          { emptyWorld with
              crawlData := [CrawlPage.mk (some "hello") (some (Metadata.mk none))] } := by
  constructor
  · rfl
  · decide

/-- Claim C2 (corrected): a crawl invocation without an output directory
prints, for each page, a heading line with the page metadata's title, the
first 1000 characters of the page's markdown (or an empty line when the
markdown is absent or empty), then a separator; the literal fallback
`Untitled` is used only when the metadata itself is absent — when metadata is
present but its title is absent, the heading shows the literal `None`
rendering of the missing title instead. -/
theorem C2_crawl_print (url : String) (limit : Int) (w : World) :
    run (Cmd.crawl url limit none) w =
      Event.crawlCall url limit ::
      w.crawlData.flatMap (fun page =>
        [Event.stdoutLine ("## " ++ (match page.metadata with
            | some m =>
              match m.title with
              | some t => t
              | none => "None"
            | none => "Untitled")),
         Event.stdoutLine (match page.markdown with
            | none => ""
            | some s => if s = "" then "" else pySlice s 1000),
         Event.stdoutLine "\n---\n"]) := by
  have step : run (Cmd.crawl url limit none) w =
      Event.crawlCall url limit ::
      w.crawlData.flatMap (fun page =>
        [Event.stdoutLine ("## " ++ (match page.metadata with
            | some m => pyStr m.title
            | none => "Untitled")),
         Event.stdoutLine (match page.markdown with
            | none => ""
            | some s => if s = "" then "" else pySlice s 1000),
         Event.stdoutLine "\n---\n"]) := rfl
  rw [step]
  congr 1
  refine list_flatMap_ext (fun page => ?_) w.crawlData
  cases page.metadata with
  | none => rfl
  | some m =>
    obtain ⟨title⟩ := m
    cases title with
    | none => simp [pyStr]
    | some t => simp [pyStr]

/-- Claim C3 (confirmed): a markdown invocation with the main-content-only
flag false sends the scrape request with `only_main_content` omitted
(modelled as `none`, Python's `None`, which the client drops from the
request) rather than set to false; with the flag true it is sent as true. -/
theorem C3_only_main_content (url : String) (w : World) :
    run (Cmd.markdown url false) w =
      [Event.scrapeCall url ["markdown"] none,
       Event.stdoutLine (pyStr w.scrapeMarkdown)]
    ∧ run (Cmd.markdown url true) w =
      [Event.scrapeCall url ["markdown"] (some true),
       Event.stdoutLine (pyStr w.scrapeMarkdown)] :=
  ⟨rfl, rfl⟩

/-- Claim C4 (confirmed): a screenshot invocation whose result string begins
with `http://` or `https://` prints exactly `[Screenshot URL: <string>]`
when no output path was given; with an output path it fetches the remote
resource into the path and reports the saved location. -/
theorem C4_screenshot_url (url d p : String) (w : World)
    (h : pyStartsWith d "http://" = true ∨ pyStartsWith d "https://" = true) :
    run (Cmd.screenshot url none) { w with screenshotData := d } =
      [Event.scrapeCall url ["screenshot"] none,
       Event.stdoutLine ("[Screenshot URL: " ++ d ++ "]")]
    ∧ run (Cmd.screenshot url (some p)) { w with screenshotData := d } =
      [Event.scrapeCall url ["screenshot"] none,
       Event.urlretrieve d p,
       Event.stdoutLine ("Screenshot saved to " ++ p)] := by
  have hb : (pyStartsWith d "http://" || pyStartsWith d "https://") = true := by
    rcases h with h | h <;> simp [h]
  constructor <;> simp [run, take_screenshot, hb]

/-- Witness for C4 at a concrete GCS-style URL result. -/
theorem C4_screenshot_url_witness :
    run (Cmd.screenshot "https://e.example" none)
        { emptyWorld with screenshotData := "https://img.example/s.png" } =
      [Event.scrapeCall "https://e.example" ["screenshot"] none,
       Event.stdoutLine "[Screenshot URL: https://img.example/s.png]"]
    ∧ run (Cmd.screenshot "https://e.example" (some "shot.png"))
        { emptyWorld with screenshotData := "https://img.example/s.png" } =
      [Event.scrapeCall "https://e.example" ["screenshot"] none,
       Event.urlretrieve "https://img.example/s.png" "shot.png",
       Event.stdoutLine "Screenshot saved to shot.png"] :=
  C4_screenshot_url "https://e.example" "https://img.example/s.png" "shot.png"
    emptyWorld (Or.inr (by decide))

/-- Claim C5 (confirmed): a screenshot invocation whose result string is a
data URI (begins with `data:image`) with an output path strips everything up
to and including the first comma, base64-decodes the remaining payload,
writes the decoded bytes to the path and reports the path; with no path it
prints a byte-count summary instead. -/
theorem C5_screenshot_data_uri (url d payload p : String) (w : World)
    (h1 : pyStartsWith d "http://" = false)
    (h2 : pyStartsWith d "https://" = false)
    (h3 : pyStartsWith d "data:image" = true)
    (h4 : splitAfterFirstComma d = some payload) :
    run (Cmd.screenshot url (some p)) { w with screenshotData := d } =
      [Event.scrapeCall url ["screenshot"] none,
       Event.writeBin p (b64decode payload),
       Event.stdoutLine ("Screenshot saved to " ++ p)]
    ∧ run (Cmd.screenshot url none) { w with screenshotData := d } =
      [Event.scrapeCall url ["screenshot"] none,
       Event.stdoutLine ("[Screenshot: " ++ toString payload.length ++ " bytes base64]")] := by
  constructor <;> simp [run, take_screenshot, h1, h2, h3, h4]

/-- Witness for C5 at the spec's concrete input `data:image/png;base64,AAAA`:
the decoded bytes written are the three zero bytes `AAAA` encodes. -/
theorem C5_screenshot_data_uri_witness :
    run (Cmd.screenshot "https://e.example" (some "shot.png"))
        { emptyWorld with screenshotData := "data:image/png;base64,AAAA" } =
      [Event.scrapeCall "https://e.example" ["screenshot"] none,
       Event.writeBin "shot.png" [0, 0, 0],
       Event.stdoutLine "Screenshot saved to shot.png"]
    ∧ run (Cmd.screenshot "https://e.example" none)
        { emptyWorld with screenshotData := "data:image/png;base64,AAAA" } =
      [Event.scrapeCall "https://e.example" ["screenshot"] none,
       Event.stdoutLine "[Screenshot: 4 bytes base64]"] :=
  C5_screenshot_data_uri "https://e.example" "data:image/png;base64,AAAA" "AAAA"
    "shot.png" emptyWorld (by decide) (by decide) (by decide) (by decide)

/-- Claim C6 (confirmed): a crawl invocation with an output directory creates
the directory (with parents, idempotently), writes each page's markdown (the
empty string when absent or empty) to a file named with the zero-padded
3-digit index of the page's position, and reports the count and location; in
particular three pages with markdown `A`, `B`, `""` yield exactly the files
`page_000.md`, `page_001.md`, `page_002.md`, the third empty. -/
theorem C6_crawl_save (url : String) (limit : Int) (dir : String) (w : World) :
    run (Cmd.crawl url limit (some dir)) w =
      Event.crawlCall url limit ::
      Event.mkdirP dir ::
      (w.crawlData.enum.map fun pr =>
        Event.writeFile (dir ++ "/page_" ++ pad3 pr.1 ++ ".md")
          (match pr.2.markdown with
           | none => ""
           | some s => if s = "" then "" else s))
      ++ [Event.stdoutLine ("Saved " ++ toString w.crawlData.length ++ " pages to " ++ dir ++ "/")]
    ∧ run (Cmd.crawl "https://docs.example" 50 (some "out"))
        { emptyWorld with crawlData :=
            [CrawlPage.mk (some "A") none,
             CrawlPage.mk (some "B") none,
             CrawlPage.mk (some "") none] } =
      [Event.crawlCall "https://docs.example" 50,
       Event.mkdirP "out",
       Event.writeFile "out/page_000.md" "A",
       Event.writeFile "out/page_001.md" "B",
       Event.writeFile "out/page_002.md" "",
       Event.stdoutLine "Saved 3 pages to out/"] :=
  ⟨rfl, rfl⟩

/-- Claim C7 (confirmed): a search invocation prints, for each result in the
order returned by the external service (no local reordering), a heading line
with the title, a URL line, and a description line that falls back to the
literal `No description` when the description is absent (or empty), then a
separator; an empty result list produces no output lines. -/
theorem C7_search_output (query : String) (limit : Int) (w : World)
    (xs : List SearchResult) :
    run (Cmd.search query limit) { w with searchWeb := some xs } =
      Event.searchCall query limit ::
      xs.flatMap (fun r =>
        [Event.stdoutLine ("## " ++ pyStr r.title),
         Event.stdoutLine ("URL: " ++ pyStr r.url),
         Event.stdoutLine (match r.description with
            | none => "No description"
            | some s => if s = "" then "No description" else s),
         Event.stdoutLine "\n---\n"])
    ∧ run (Cmd.search query limit) { w with searchWeb := some [] } =
      [Event.searchCall query limit] := by
  constructor
  · cases xs with
    | nil => rfl
    | cons a as => rfl
  · rfl

/-- Claim C8 (confirmed): an extract invocation whose schema file is missing
or whose contents are not valid JSON terminates with that uncaught error and
performs no service call (no network request is attempted). -/
theorem C8_extract_schema_failure (url sp : String) (prompt : Option String) (w : World)
    (h : w.fileSystem sp = none ∨
         ∃ content, w.fileSystem sp = some content ∧ w.parseJson content = none) :
    (∃ exc, run (Cmd.extract url sp prompt) w = [Event.raiseExc exc])
    ∧ ∀ u j pr, Event.scrapeJsonCall u j pr ∉ run (Cmd.extract url sp prompt) w := by
  rcases h with h | ⟨content, hc, hp⟩
  · refine ⟨⟨"FileNotFoundError", ?_⟩, ?_⟩ <;> simp [run, h]
  · refine ⟨⟨"JSONDecodeError", ?_⟩, ?_⟩ <;> simp [run, hc, hp]

/-- Witness for C8 at a concrete world whose schema file exists but holds
invalid JSON. -/
theorem C8_extract_schema_failure_witness :
    (∃ exc, run (Cmd.extract "https://e.example" "schema.json" none)
        { emptyWorld with fileSystem := fun _ => some "not valid json" } =
        [Event.raiseExc exc])
    ∧ ∀ u j pr, Event.scrapeJsonCall u j pr ∉
        run (Cmd.extract "https://e.example" "schema.json" none)
          { emptyWorld with fileSystem := fun _ => some "not valid json" } :=
  C8_extract_schema_failure "https://e.example" "schema.json" none
    { emptyWorld with fileSystem := fun _ => some "not valid json" }
    (Or.inr ⟨"not valid json", rfl, rfl⟩)

/-- Claim C9 (confirmed): a screenshot invocation whose result string begins
with none of `http://`, `https://`, `data:image` treats the whole string as a
bare base64 payload: with an output path it base64-decodes the entire string
and writes the decoded bytes to the path; without a path it prints a
byte-count summary whose count is the length of the base64 string itself. -/
theorem C9_screenshot_bare_base64 (url d p : String) (w : World)
    (h1 : pyStartsWith d "http://" = false)
    (h2 : pyStartsWith d "https://" = false)
    (h3 : pyStartsWith d "data:image" = false) :
    run (Cmd.screenshot url (some p)) { w with screenshotData := d } =
      [Event.scrapeCall url ["screenshot"] none,
       Event.writeBin p (b64decode d),
       Event.stdoutLine ("Screenshot saved to " ++ p)]
    ∧ run (Cmd.screenshot url none) { w with screenshotData := d } =
      [Event.scrapeCall url ["screenshot"] none,
       Event.stdoutLine ("[Screenshot: " ++ toString d.length ++ " bytes base64]")] := by
  constructor <;> simp [run, take_screenshot, h1, h2, h3]

/-- Witness for C9 at the bare payload `AAAA`: four base64 characters decode
to three zero bytes, and the printed count is 4 — the length of the base64
string, not of the decoded bytes. -/
theorem C9_screenshot_bare_base64_witness :
    (run (Cmd.screenshot "https://e.example" (some "shot.png"))
        { emptyWorld with screenshotData := "AAAA" } =
      [Event.scrapeCall "https://e.example" ["screenshot"] none,
       Event.writeBin "shot.png" [0, 0, 0],
       Event.stdoutLine "Screenshot saved to shot.png"]
    ∧ run (Cmd.screenshot "https://e.example" none)
        { emptyWorld with screenshotData := "AAAA" } =
      [Event.scrapeCall "https://e.example" ["screenshot"] none,
       Event.stdoutLine "[Screenshot: 4 bytes base64]"])
    ∧ ("AAAA".length ≠ (b64decode "AAAA").length) :=
  ⟨C9_screenshot_bare_base64 "https://e.example" "AAAA" "shot.png" emptyWorld
     (by decide) (by decide) (by decide),
   by decide⟩

/-- Claim C10 (confirmed): when the external search response carries a null
or absent web-result list, `search_web` returns the empty list (never null,
which the return type rules out), so the printing loop iterates zero times;
a present list is returned as is. -/
theorem C10_search_web_null (query : String) (limit : Int) (w : World) :
    (search_web query limit { w with searchWeb := none }).2 = []
    ∧ ∀ xs, (search_web query limit { w with searchWeb := some xs }).2 = xs := by
  refine ⟨rfl, fun xs => ?_⟩
  cases xs with
  | nil => rfl
  | cons a as => rfl
